import Mathlib

/-!
Shallow embedding of `src/app.py` (Streamlit front-end for text summarization
and paraphrasing) and verification of its specification claims.

The script runs top to bottom once per user interaction.  We embed one such
run as a pure function `App.runScript` from an input record (environment
credential, pipeline constructor outcome, prior session state, widget values,
which button was clicked, filesystem) to a result record (new session state,
new filesystem, the user-visible messages emitted, the inference calls made,
whether the script halted early).

The `SummarizationPipeline` collaborator lives outside `src/` (module
`src.combinedPipeline`); the claims only concern how `app.py` drives it, so it
is embedded as an oracle: a pair of functions that may succeed with a string
or raise (`Except`).  Purely decorative output (CSS, headers, the About box,
the footer) is not part of any claim and is omitted from the event trace;
every message a claim mentions (errors, successes, result displays, the
credential link, the output placeholder) is embedded verbatim.
-/

namespace App

/-- A Python exception, carrying its rendered message (`str(e)`). -/
structure PyError where
  msg : String
deriving DecidableEq

/-- The three Streamlit session-state keys initialized at app.py lines
106-108: `text_input`, `text_output`, `mode` (all start as `""`). -/
structure SessionState where
  text_input : String
  text_output : String
  mode : String
deriving DecidableEq

/-- The local filesystem, abstracted as a write log plus a flag saying
whether the save target (the Downloads directory) is writable.  A write to an
unwritable target raises, as `open`/`write` do in Python. -/
structure FileSystem where
  writable : Bool
  files : List (String × String)
deriving DecidableEq

/-- Writing a file: succeeds (recording path and content, newest first) when
the target is writable, raises otherwise. -/
def FileSystem.writeFile (fs : FileSystem) (path content : String) :
    Except PyError FileSystem :=
  if fs.writable then .ok { fs with files := (path, content) :: fs.files }
  else .error { msg := "PermissionError" }

/-- The content stored at a path: the most recent write wins. -/
def FileSystem.readFile (fs : FileSystem) (path : String) : Option String :=
  (fs.files.find? (fun e => e.1 == path)).map (fun e => e.2)

/-- Python truthiness of an optional string (`os.getenv` result or the value
returned by `save_file`): `None` and `""` are falsy. -/
def pyStrOptFalsy : Option String → Bool
  | none => true
  | some s => s == ""

/-- Python `str.lower()` on the ASCII label strings used by the sidebar. -/
def pyLower (s : String) : String :=
  ⟨s.data.map Char.toLower⟩

/-- `Path.home() / "Downloads" / filename`, rendered as a string as
`str(path)` does (app.py lines 97-98, 101). -/
def downloadsPath (home filename : String) : String :=
  home ++ "/Downloads/" ++ filename

/-- The body of `save_file`'s `try` block (app.py lines 96-101): build the
Downloads path, write the content, return the rendered path.  Any failure of
the write propagates as an exception here. -/
def save_file_try (home : String) (fs : FileSystem) (content filename : String) :
    Except PyError (String × FileSystem) :=
  match fs.writeFile (downloadsPath home filename) content with
  | .ok fs' => .ok (downloadsPath home filename, fs')
  | .error e => .error e

/-- `save_file` (app.py lines 94-103): the `try` body with
`except Exception: return None`.  `PyError` is our universal exception type,
so the catch is exhaustive: the caller sees `some path` or `none`, never an
exception. -/
def save_file (home : String) (fs : FileSystem) (content filename : String) :
    Option String × FileSystem :=
  match save_file_try home fs content filename with
  | .ok (p, fs') => (some p, fs')
  | .error _ => (none, fs)

/-- The `SummarizationPipeline` oracle: each method makes one remote call and
returns the resulting string or raises. -/
structure Pipeline where
  summarize : String → String → String → Except PyError String
  paraphrase : String → Except PyError String

/-- User-visible output relevant to the claims: `st.error`, `st.success`,
`st.markdown`, and rendered result text areas. -/
inductive UIEvent where
  | errorMsg (s : String)
  | successMsg (s : String)
  | markdown (s : String)
  | resultArea (label content : String)
deriving DecidableEq

/-- A call made against the pipeline, with the arguments as passed. -/
inductive InfCall where
  | summarizeCall (text method length : String)
  | paraphraseCall (text : String)
deriving DecidableEq

/-- Message shown when `HF_TOKEN` is falsy (app.py line 112). -/
def missingKeyMsg : String :=
  "⚠️ Missing Hugging Face API Key. Add it in `src/.env`."

/-- Credential link shown next to the missing-key error (app.py lines 113-115). -/
def tokenLinkMsg : String :=
  "Get one here: [Hugging Face Tokens](https://huggingface.co/settings/tokens)"

/-- Placeholder markdown shown when there is no output to display
(app.py line 222). -/
def outputPlaceholder : String :=
  "<div class=\x27output-box\x27><em>Enter text above and click Run to start...</em></div>"

/-- Everything an interactive run of the script reads. -/
structure ScriptInput where
  hfToken : Option String
  pipelineInit : Except PyError Pipeline
  session : SessionState
  inputText : String
  task : String
  style : String
  length : String
  runBtn : Bool
  clearBtn : Bool
  saveBtn : Bool
  home : String
  fs : FileSystem

/-- Everything an interactive run of the script produces or changes.
`halted` records that `st.stop()` or `st.rerun()` ended the run early;
`pipelineInitAttempted` records whether control reached the
`get_pipeline()` call (app.py line 124). -/
structure ScriptResult where
  session : SessionState
  fs : FileSystem
  events : List UIEvent
  calls : List InfCall
  halted : Bool
  pipelineInitAttempted : Bool
deriving DecidableEq

/-- Result of the run-button section. -/
structure RunOut where
  session : SessionState
  events : List UIEvent
  calls : List InfCall
deriving DecidableEq

/-- Result of the save-button section. -/
structure SaveOut where
  fs : FileSystem
  events : List UIEvent
deriving DecidableEq

/-- The output section (app.py lines 198-222).  Guard: `run_btn and
input_text` (empty string is falsy).  In the Summarization branch the call is
`summarize(input_text, method=style.lower(), length=length.lower())`; on
success `mode` is set, then `text_output`, then the success message and the
result area render; on an exception nothing is assigned and the error is
shown.  When the guard fails, the previous output (if truthy) or the
placeholder is shown. -/
def runSection (pipeline : Pipeline) (inp : ScriptInput) (s1 : SessionState) :
    RunOut :=
  if inp.runBtn ∧ inp.inputText ≠ "" then
    if inp.task = "Summarization" then
      match pipeline.summarize inp.inputText (pyLower inp.style) (pyLower inp.length) with
      | .ok result =>
          { session := { s1 with mode := "summary", text_output := result },
            events := [.successMsg "✅ Completed successfully.",
                       .resultArea "Result" result],
            calls := [.summarizeCall inp.inputText (pyLower inp.style) (pyLower inp.length)] }
      | .error e =>
          { session := s1,
            events := [.errorMsg ("⚠️ Error: " ++ e.msg)],
            calls := [.summarizeCall inp.inputText (pyLower inp.style) (pyLower inp.length)] }
    else
      match pipeline.paraphrase inp.inputText with
      | .ok result =>
          { session := { s1 with mode := "paraphrase", text_output := result },
            events := [.successMsg "✅ Completed successfully.",
                       .resultArea "Result" result],
            calls := [.paraphraseCall inp.inputText] }
      | .error e =>
          { session := s1,
            events := [.errorMsg ("⚠️ Error: " ++ e.msg)],
            calls := [.paraphraseCall inp.inputText] }
  else if s1.text_output ≠ "" then
    { session := s1,
      events := [.resultArea "Previous Output" s1.text_output],
      calls := [] }
  else
    { session := s1, events := [.markdown outputPlaceholder], calls := [] }

/-- Filename selection on save (app.py line 226): `AI_output.txt` when the
session mode is `"summary"`, else `AI_paraphrase.txt`. -/
def saveFilename (mode : String) : String :=
  if mode = "summary" then "AI_output.txt" else "AI_paraphrase.txt"

/-- The save-button section (app.py lines 225-231).  Guard: `save_btn and
st.session_state.text_output` (reading the session as left by the run
section).  Filename is `AI_output.txt` when `mode == "summary"`, else
`AI_paraphrase.txt`; `save_file`'s return value is tested for truthiness. -/
def saveSection (inp : ScriptInput) (s2 : SessionState) : SaveOut :=
  if inp.saveBtn ∧ s2.text_output ≠ "" then
    match save_file inp.home inp.fs s2.text_output (saveFilename s2.mode) with
    | (some p, fs') =>
        if p = "" then { fs := fs', events := [.errorMsg "⚠️ Could not save file"] }
        else { fs := fs', events := [.successMsg ("💾 File saved to: " ++ p)] }
    | (none, fs') => { fs := fs', events := [.errorMsg "⚠️ Could not save file"] }
  else { fs := inp.fs, events := [] }

/-- The text area write-back (app.py line 183): the text area's current
contents are stored into `st.session_state.text_input` before the buttons
are handled. -/
def sessionAfterInput (inp : ScriptInput) : SessionState :=
  { inp.session with text_input := inp.inputText }

/-- One top-to-bottom run of app.py, after session initialization.  In order:
the API-key check (lines 111-116, `st.stop()` on a falsy token); pipeline
construction (lines 119-127, `st.stop()` on an exception); the input text
area writes back into the session (line 183); the clear button sets every
session key to `""` and reruns (lines 190-193); then the output section and
the save section. -/
def runScript (inp : ScriptInput) : ScriptResult :=
  if pyStrOptFalsy inp.hfToken then
    { session := inp.session, fs := inp.fs,
      events := [.errorMsg missingKeyMsg, .markdown tokenLinkMsg],
      calls := [], halted := true, pipelineInitAttempted := false }
  else
    match inp.pipelineInit with
    | .error e =>
        { session := inp.session, fs := inp.fs,
          events := [.errorMsg ("Failed to initialize pipeline: " ++ e.msg)],
          calls := [], halted := true, pipelineInitAttempted := true }
    | .ok pipeline =>
        let s1 := sessionAfterInput inp
        if inp.clearBtn then
          { session := { text_input := "", text_output := "", mode := "" },
            fs := inp.fs, events := [], calls := [],
            halted := true, pipelineInitAttempted := true }
        else
          let ro := runSection pipeline inp s1
          let so := saveSection inp ro.session
          { session := ro.session, fs := so.fs,
            events := ro.events ++ so.events, calls := ro.calls,
            halted := false, pipelineInitAttempted := true }

end App

namespace App

/-- A pipeline whose remote calls always succeed, for concrete runs. -/
def okPipeline : Pipeline :=
  { summarize := fun _ _ _ => .ok "SUMMARY", paraphrase := fun _ => .ok "PARA" }

/-- A pipeline whose remote calls always raise, for concrete runs. -/
def failPipeline : Pipeline :=
  { summarize := fun _ _ _ => .error { msg := "boom" },
    paraphrase := fun _ => .error { msg := "boom" } }

/-- A concrete interactive state: valid token, working pipeline, a prior
summary result in the session, no button pressed. -/
def baseInput : ScriptInput :=
  { hfToken := some "tok", pipelineInit := .ok okPipeline,
    session := { text_input := "old in", text_output := "old out", mode := "summary" },
    inputText := "hello", task := "Summarization", style := "Abstractive",
    length := "Medium", runBtn := false, clearBtn := false, saveBtn := false,
    home := "/home/u", fs := { writable := true, files := [] } }

/-- Concrete input for a run whose pipeline call fails. -/
def c1In : ScriptInput :=
  { baseInput with runBtn := true, pipelineInit := .ok failPipeline }

/-- Concrete input for a save click with no prior result in the session. -/
def c2In : ScriptInput :=
  { baseInput with
    saveBtn := true
    session := { text_input := "", text_output := "", mode := "" } }

/-- Concrete input for a save click with a prior result. -/
def c3In : ScriptInput :=
  { baseInput with saveBtn := true }

/-- Concrete input for a run click with empty input text. -/
def c8In : ScriptInput :=
  { baseInput with runBtn := true, inputText := "" }

/-- Concrete input for a clear click. -/
def c4In : ScriptInput :=
  { baseInput with clearBtn := true }

/-- Concrete input for a successful Summarization run click. -/
def c5In : ScriptInput :=
  { baseInput with runBtn := true }

/-- Concrete input with the credential missing from the environment. -/
def c7In : ScriptInput :=
  { baseInput with hfToken := none }

end App

namespace App

/-- On a writable target, `save_file` records the write and returns the
rendered Downloads path. -/
theorem save_file_writable (home : String) (fs : FileSystem) (content filename : String)
    (hw : fs.writable = true) :
    save_file home fs content filename =
      (some (downloadsPath home filename),
       { fs with files := (downloadsPath home filename, content) :: fs.files }) := by
  simp [save_file, save_file_try, FileSystem.writeFile, hw]

/-- On an unwritable target, the write raises and `save_file` catches,
returning `none` and leaving the filesystem unchanged. -/
theorem save_file_unwritable (home : String) (fs : FileSystem) (content filename : String)
    (hw : fs.writable = false) :
    save_file home fs content filename = (none, fs) := by
  simp [save_file, save_file_try, FileSystem.writeFile, hw]

/-- The length of "/Downloads/" as a string. -/
theorem downloads_seg_length : ("/Downloads/" : String).length = 11 := rfl

/-- The rendered Downloads path is never the empty string. -/
theorem downloadsPath_ne_empty (home filename : String) :
    downloadsPath home filename ≠ "" := by
  intro h
  have h1 : (downloadsPath home filename).length = 0 := by rw [h]; rfl
  rw [downloadsPath, String.length_append, String.length_append,
    downloads_seg_length] at h1
  omega

/-- Reading back the path just written returns the written content. -/
theorem readFile_write_self (fs : FileSystem) (p c : String) :
    FileSystem.readFile { fs with files := (p, c) :: fs.files } p = some c := by
  simp [FileSystem.readFile, List.find?]

end App

namespace App

/-- On the main path (truthy token, pipeline constructed, clear not pressed)
the script's outcome is the run section followed by the save section. -/
theorem runScript_main (inp : ScriptInput) (pipeline : Pipeline)
    (htok : pyStrOptFalsy inp.hfToken = false)
    (hpipe : inp.pipelineInit = .ok pipeline)
    (hclear : inp.clearBtn = false) :
    runScript inp =
      { session := (runSection pipeline inp (sessionAfterInput inp)).session
        fs := (saveSection inp (runSection pipeline inp (sessionAfterInput inp)).session).fs
        events := (runSection pipeline inp (sessionAfterInput inp)).events
          ++ (saveSection inp (runSection pipeline inp (sessionAfterInput inp)).session).events
        calls := (runSection pipeline inp (sessionAfterInput inp)).calls
        halted := false
        pipelineInitAttempted := true } := by
  simp [runScript, htok, hpipe, hclear]

/-- Run section, Summarization branch, remote call succeeds. -/
theorem runSection_summ_ok (pipeline : Pipeline) (inp : ScriptInput) (s1 : SessionState)
    (r : String)
    (hrun : inp.runBtn = true) (hin : inp.inputText ≠ "")
    (ht : inp.task = "Summarization")
    (hres : pipeline.summarize inp.inputText (pyLower inp.style) (pyLower inp.length) = .ok r) :
    runSection pipeline inp s1 =
      { session := { s1 with mode := "summary", text_output := r }
        events := [.successMsg "✅ Completed successfully.", .resultArea "Result" r]
        calls := [.summarizeCall inp.inputText (pyLower inp.style) (pyLower inp.length)] } := by
  simp [runSection, hrun, hin, ht, hres]

/-- Run section, Summarization branch, remote call raises. -/
theorem runSection_summ_err (pipeline : Pipeline) (inp : ScriptInput) (s1 : SessionState)
    (e : PyError)
    (hrun : inp.runBtn = true) (hin : inp.inputText ≠ "")
    (ht : inp.task = "Summarization")
    (hres : pipeline.summarize inp.inputText (pyLower inp.style) (pyLower inp.length) = .error e) :
    runSection pipeline inp s1 =
      { session := s1
        events := [.errorMsg ("⚠️ Error: " ++ e.msg)]
        calls := [.summarizeCall inp.inputText (pyLower inp.style) (pyLower inp.length)] } := by
  simp [runSection, hrun, hin, ht, hres]

/-- Run section, Paraphrasing branch, remote call succeeds. -/
theorem runSection_para_ok (pipeline : Pipeline) (inp : ScriptInput) (s1 : SessionState)
    (r : String)
    (hrun : inp.runBtn = true) (hin : inp.inputText ≠ "")
    (ht : inp.task ≠ "Summarization")
    (hres : pipeline.paraphrase inp.inputText = .ok r) :
    runSection pipeline inp s1 =
      { session := { s1 with mode := "paraphrase", text_output := r }
        events := [.successMsg "✅ Completed successfully.", .resultArea "Result" r]
        calls := [.paraphraseCall inp.inputText] } := by
  simp [runSection, hrun, hin, ht, hres]

/-- Run section, Paraphrasing branch, remote call raises. -/
theorem runSection_para_err (pipeline : Pipeline) (inp : ScriptInput) (s1 : SessionState)
    (e : PyError)
    (hrun : inp.runBtn = true) (hin : inp.inputText ≠ "")
    (ht : inp.task ≠ "Summarization")
    (hres : pipeline.paraphrase inp.inputText = .error e) :
    runSection pipeline inp s1 =
      { session := s1
        events := [.errorMsg ("⚠️ Error: " ++ e.msg)]
        calls := [.paraphraseCall inp.inputText] } := by
  simp [runSection, hrun, hin, ht, hres]

/-- Run section when the guard fails and a previous output exists. -/
theorem runSection_prev (pipeline : Pipeline) (inp : ScriptInput) (s1 : SessionState)
    (hg : ¬(inp.runBtn = true ∧ inp.inputText ≠ ""))
    (ho : s1.text_output ≠ "") :
    runSection pipeline inp s1 =
      { session := s1
        events := [.resultArea "Previous Output" s1.text_output]
        calls := [] } := by
  unfold runSection
  rw [if_neg hg, if_pos ho]

/-- Run section when the guard fails and there is no previous output. -/
theorem runSection_placeholder (pipeline : Pipeline) (inp : ScriptInput) (s1 : SessionState)
    (hg : ¬(inp.runBtn = true ∧ inp.inputText ≠ ""))
    (ho : ¬s1.text_output ≠ "") :
    runSection pipeline inp s1 =
      { session := s1
        events := [.markdown outputPlaceholder]
        calls := [] } := by
  unfold runSection
  rw [if_neg hg, if_neg ho]

/-- Save section when the guard fails: no write, no message. -/
theorem saveSection_off (inp : ScriptInput) (s2 : SessionState)
    (h : ¬(inp.saveBtn = true ∧ s2.text_output ≠ "")) :
    saveSection inp s2 = { fs := inp.fs, events := [] } := by
  unfold saveSection
  rw [if_neg h]

/-- Save section on a writable target: the output is written under the
mode-selected fixed filename and the resolved path is reported. -/
theorem saveSection_on_writable (inp : ScriptInput) (s2 : SessionState)
    (hsave : inp.saveBtn = true) (hout : s2.text_output ≠ "")
    (hw : inp.fs.writable = true) :
    saveSection inp s2 =
      { fs := { inp.fs with files :=
          (downloadsPath inp.home (saveFilename s2.mode), s2.text_output) :: inp.fs.files }
        events := [.successMsg ("💾 File saved to: " ++
          downloadsPath inp.home (saveFilename s2.mode))] } := by
  unfold saveSection
  rw [if_pos ⟨hsave, hout⟩, save_file_writable _ _ _ _ hw]
  simp [downloadsPath_ne_empty]

/-- Save section on an unwritable target: the raise is caught and an error
is reported, the filesystem unchanged. -/
theorem saveSection_on_unwritable (inp : ScriptInput) (s2 : SessionState)
    (hsave : inp.saveBtn = true) (hout : s2.text_output ≠ "")
    (hw : inp.fs.writable = false) :
    saveSection inp s2 =
      { fs := inp.fs, events := [.errorMsg "⚠️ Could not save file"] } := by
  unfold saveSection
  rw [if_pos ⟨hsave, hout⟩, save_file_unwritable _ _ _ _ hw]

end App

namespace App

/-- C1: For every Run action whose inference call fails (summarize or
paraphrase raises), the error message is displayed and the session state is
not mutated: `text_output` and `mode` keep the values they had before the
click. -/
theorem run_failure_displays_error_and_preserves_output
    (inp : ScriptInput) (pipeline : Pipeline) (e : PyError)
    (htok : pyStrOptFalsy inp.hfToken = false)
    (hpipe : inp.pipelineInit = .ok pipeline)
    (hclear : inp.clearBtn = false)
    (hrun : inp.runBtn = true)
    (hin : inp.inputText ≠ "")
    (hfail :
      (inp.task = "Summarization" →
        pipeline.summarize inp.inputText (pyLower inp.style) (pyLower inp.length) = .error e) ∧
      (inp.task ≠ "Summarization" → pipeline.paraphrase inp.inputText = .error e)) :
    UIEvent.errorMsg ("⚠️ Error: " ++ e.msg) ∈ (runScript inp).events ∧
    (runScript inp).session.text_output = inp.session.text_output ∧
    (runScript inp).session.mode = inp.session.mode := by
  rw [runScript_main inp pipeline htok hpipe hclear]
  by_cases ht : inp.task = "Summarization"
  · rw [runSection_summ_err pipeline inp (sessionAfterInput inp) e hrun hin ht (hfail.1 ht)]
    simp [sessionAfterInput]
  · rw [runSection_para_err pipeline inp (sessionAfterInput inp) e hrun hin ht (hfail.2 ht)]
    simp [sessionAfterInput]

/-- C1 witness: a concrete failing summarization run shows the error and
keeps the prior output and mode. -/
theorem run_failure_displays_error_and_preserves_output_w :
    UIEvent.errorMsg ("⚠️ Error: " ++ "boom") ∈ (runScript c1In).events ∧
    (runScript c1In).session.text_output = c1In.session.text_output ∧
    (runScript c1In).session.mode = c1In.session.mode :=
  run_failure_displays_error_and_preserves_output c1In failPipeline { msg := "boom" }
    rfl rfl rfl rfl (by decide) ⟨fun _ => rfl, fun h => absurd rfl h⟩

/-- C4: The Clear action resets `text_input`, `text_output`, and `mode` to
the empty string, for every prior session state, and ends the run
(`st.rerun`). -/
theorem clear_resets_session (inp : ScriptInput) (pipeline : Pipeline)
    (htok : pyStrOptFalsy inp.hfToken = false)
    (hpipe : inp.pipelineInit = .ok pipeline)
    (hclear : inp.clearBtn = true) :
    (runScript inp).session = { text_input := "", text_output := "", mode := "" } ∧
    (runScript inp).halted = true := by
  simp [runScript, htok, hpipe, hclear]

/-- C4 witness: a concrete clear click resets the populated session. -/
theorem clear_resets_session_w :
    (runScript c4In).session = { text_input := "", text_output := "", mode := "" } ∧
    (runScript c4In).halted = true :=
  clear_resets_session c4In okPipeline rfl rfl rfl

/-- C7: If the credential is absent (falsy `HF_TOKEN`), the script halts
before pipeline construction, reporting the missing-key message and the
credential link; no call is made and no state changes. -/
theorem missing_credential_halts_startup (inp : ScriptInput)
    (htok : pyStrOptFalsy inp.hfToken = true) :
    runScript inp =
      { session := inp.session
        fs := inp.fs
        events := [UIEvent.errorMsg missingKeyMsg, UIEvent.markdown tokenLinkMsg]
        calls := []
        halted := true
        pipelineInitAttempted := false } := by
  simp [runScript, htok]

/-- C7 witness: concrete run with no token halts with the message and link. -/
theorem missing_credential_halts_startup_w :
    runScript c7In =
      { session := c7In.session
        fs := c7In.fs
        events := [UIEvent.errorMsg missingKeyMsg, UIEvent.markdown tokenLinkMsg]
        calls := []
        halted := true
        pipelineInitAttempted := false } :=
  missing_credential_halts_startup c7In rfl

/-- C9: A Run click with empty input text performs no inference call and
leaves `text_output` and `mode` unchanged; the previous output, if any, is
displayed. -/
theorem empty_input_run_is_noop (inp : ScriptInput) (pipeline : Pipeline)
    (htok : pyStrOptFalsy inp.hfToken = false)
    (hpipe : inp.pipelineInit = .ok pipeline)
    (hclear : inp.clearBtn = false)
    ( _hrun : inp.runBtn = true)
    (hin : inp.inputText = "") :
    (runScript inp).calls = [] ∧
    (runScript inp).session.text_output = inp.session.text_output ∧
    (runScript inp).session.mode = inp.session.mode ∧
    (inp.session.text_output ≠ "" →
      UIEvent.resultArea "Previous Output" inp.session.text_output ∈ (runScript inp).events) := by
  rw [runScript_main inp pipeline htok hpipe hclear]
  have hg : ¬(inp.runBtn = true ∧ inp.inputText ≠ "") := fun h => h.2 hin
  by_cases ho : inp.session.text_output = ""
  · rw [runSection_placeholder pipeline inp (sessionAfterInput inp) hg
      (fun h => h (show (sessionAfterInput inp).text_output = "" from ho))]
    simp [ho, sessionAfterInput]
  · rw [runSection_prev pipeline inp (sessionAfterInput inp) hg
      (show (sessionAfterInput inp).text_output ≠ "" from ho)]
    simp [sessionAfterInput]

/-- C9 witness: a concrete empty-input run makes no call and the prior
output stays and is displayed. -/
theorem empty_input_run_is_noop_w :
    (runScript c8In).calls = [] ∧
    (runScript c8In).session.text_output = c8In.session.text_output ∧
    (runScript c8In).session.mode = c8In.session.mode ∧
    (c8In.session.text_output ≠ "" →
      UIEvent.resultArea "Previous Output" c8In.session.text_output ∈ (runScript c8In).events) :=
  empty_input_run_is_noop c8In okPipeline rfl rfl rfl rfl rfl

end App

namespace App

/-- C2 counterexample: a concrete Save click with no prior result
(`text_output` empty).  The claim says failure is reported to the user; in
fact the save branch is skipped silently — no file write happens and the only
output is the placeholder markdown (no error or success message at all). -/
theorem save_without_result_reports_nothing_cex :
    c2In.saveBtn = true ∧ c2In.session.text_output = "" ∧
    (runScript c2In).fs = c2In.fs ∧
    (runScript c2In).events = [UIEvent.markdown outputPlaceholder] := by
  decide

/-- C2 amended: for every Save action taken when no prior result exists, the
program does not attempt a file write and silently does nothing — it emits no
save-related message of any kind (the only output is the placeholder). -/
theorem save_without_result_silently_ignored (inp : ScriptInput) (pipeline : Pipeline)
    (htok : pyStrOptFalsy inp.hfToken = false)
    (hpipe : inp.pipelineInit = .ok pipeline)
    (hclear : inp.clearBtn = false)
    (hrun : inp.runBtn = false)
    ( _hsave : inp.saveBtn = true)
    (hout : inp.session.text_output = "") :
    (runScript inp).fs = inp.fs ∧
    (runScript inp).events = [UIEvent.markdown outputPlaceholder] ∧
    (runScript inp).calls = [] := by
  rw [runScript_main inp pipeline htok hpipe hclear]
  have hg : ¬(inp.runBtn = true ∧ inp.inputText ≠ "") := fun h => by
    rw [hrun] at h
    exact absurd h.1 (by simp)
  rw [runSection_placeholder pipeline inp (sessionAfterInput inp) hg
    (fun h => h (show (sessionAfterInput inp).text_output = "" from hout))]
  dsimp only
  rw [saveSection_off inp (sessionAfterInput inp)
    (fun h => h.2 (show (sessionAfterInput inp).text_output = "" from hout))]
  simp

/-- C2 amended witness: the concrete no-result save click from the
counterexample satisfies the amended statement. -/
theorem save_without_result_silently_ignored_w :
    (runScript c2In).fs = c2In.fs ∧
    (runScript c2In).events = [UIEvent.markdown outputPlaceholder] ∧
    (runScript c2In).calls = [] :=
  save_without_result_silently_ignored c2In okPipeline rfl rfl rfl rfl rfl rfl

/-- C3: for every Save action taken when a prior result exists and the write
target is writable, a file is produced whose contents exactly equal the
stored output string. -/
theorem save_with_result_writes_stored_output (inp : ScriptInput) (pipeline : Pipeline)
    (htok : pyStrOptFalsy inp.hfToken = false)
    (hpipe : inp.pipelineInit = .ok pipeline)
    (hclear : inp.clearBtn = false)
    (hrun : inp.runBtn = false)
    (hsave : inp.saveBtn = true)
    (hout : inp.session.text_output ≠ "")
    (hw : inp.fs.writable = true) :
    FileSystem.readFile (runScript inp).fs
        (downloadsPath inp.home (saveFilename inp.session.mode))
      = some inp.session.text_output := by
  rw [runScript_main inp pipeline htok hpipe hclear]
  have hg : ¬(inp.runBtn = true ∧ inp.inputText ≠ "") := fun h => by
    rw [hrun] at h
    exact absurd h.1 (by simp)
  rw [runSection_prev pipeline inp (sessionAfterInput inp) hg
    (show (sessionAfterInput inp).text_output ≠ "" from hout)]
  dsimp only
  rw [saveSection_on_writable inp (sessionAfterInput inp) hsave
    (show (sessionAfterInput inp).text_output ≠ "" from hout) hw]
  exact readFile_write_self _ _ _

/-- C3 witness: a concrete save click with a prior summary result writes the
stored output to the Downloads file. -/
theorem save_with_result_writes_stored_output_w :
    FileSystem.readFile (runScript c3In).fs
        (downloadsPath c3In.home (saveFilename c3In.session.mode))
      = some c3In.session.text_output :=
  save_with_result_writes_stored_output c3In okPipeline rfl rfl rfl rfl rfl
    (by decide) rfl

end App

namespace App

/-- C5: for all valid (method, length) pairs selected in the UI, the Run
action invokes summarize with exactly those parameters: the single call's
method and length arguments are the lowercased selector labels, i.e. exactly
the canonical enum value of each selection. -/
theorem run_forwards_method_length_unchanged (inp : ScriptInput) (pipeline : Pipeline)
    (htok : pyStrOptFalsy inp.hfToken = false)
    (hpipe : inp.pipelineInit = .ok pipeline)
    (hclear : inp.clearBtn = false)
    (hrun : inp.runBtn = true)
    (hin : inp.inputText ≠ "")
    (ht : inp.task = "Summarization")
    (hstyle : inp.style = "Abstractive" ∨ inp.style = "Extractive")
    (hlen : inp.length = "Short" ∨ inp.length = "Medium" ∨ inp.length = "Long") :
    (runScript inp).calls
      = [InfCall.summarizeCall inp.inputText (pyLower inp.style) (pyLower inp.length)] ∧
    ((inp.style = "Abstractive" ∧ pyLower inp.style = "abstractive") ∨
      (inp.style = "Extractive" ∧ pyLower inp.style = "extractive")) ∧
    ((inp.length = "Short" ∧ pyLower inp.length = "short") ∨
      (inp.length = "Medium" ∧ pyLower inp.length = "medium") ∨
      (inp.length = "Long" ∧ pyLower inp.length = "long")) := by
  refine ⟨?_, ?_, ?_⟩
  · rw [runScript_main inp pipeline htok hpipe hclear]
    cases hres : pipeline.summarize inp.inputText (pyLower inp.style) (pyLower inp.length) with
    | ok r =>
        rw [runSection_summ_ok pipeline inp (sessionAfterInput inp) r hrun hin ht hres]
    | error e =>
        rw [runSection_summ_err pipeline inp (sessionAfterInput inp) e hrun hin ht hres]
  · rcases hstyle with h | h
    · exact Or.inl ⟨h, by rw [h]; decide⟩
    · exact Or.inr ⟨h, by rw [h]; decide⟩
  · rcases hlen with h | h | h
    · exact Or.inl ⟨h, by rw [h]; decide⟩
    · exact Or.inr (Or.inl ⟨h, by rw [h]; decide⟩)
    · exact Or.inr (Or.inr ⟨h, by rw [h]; decide⟩)

/-- C5 witness: the concrete (Abstractive, Medium) run forwards
("abstractive", "medium") in its single summarize call. -/
theorem run_forwards_method_length_unchanged_w :
    (runScript c5In).calls
      = [InfCall.summarizeCall c5In.inputText (pyLower c5In.style) (pyLower c5In.length)] ∧
    ((c5In.style = "Abstractive" ∧ pyLower c5In.style = "abstractive") ∨
      (c5In.style = "Extractive" ∧ pyLower c5In.style = "extractive")) ∧
    ((c5In.length = "Short" ∧ pyLower c5In.length = "short") ∨
      (c5In.length = "Medium" ∧ pyLower c5In.length = "medium") ∨
      (c5In.length = "Long" ∧ pyLower c5In.length = "long")) :=
  run_forwards_method_length_unchanged c5In okPipeline rfl rfl rfl rfl (by decide)
    rfl (Or.inl rfl) (Or.inr (Or.inl rfl))

end App

namespace App

/-- C6: Save writes the last result to the fixed-name file selected by the
mode (`AI_output.txt` for summary, `AI_paraphrase.txt` otherwise) in the
home Downloads directory; `save_file` returns the resolved path on success
(reported to the user) and `none` on write failure (an error is reported). -/
theorem save_fixed_filename_and_path_reporting (inp : ScriptInput) (pipeline : Pipeline)
    (htok : pyStrOptFalsy inp.hfToken = false)
    (hpipe : inp.pipelineInit = .ok pipeline)
    (hclear : inp.clearBtn = false)
    (hrun : inp.runBtn = false)
    (hsave : inp.saveBtn = true)
    (hout : inp.session.text_output ≠ "") :
    saveFilename inp.session.mode
      = (if inp.session.mode = "summary" then "AI_output.txt" else "AI_paraphrase.txt") ∧
    (inp.fs.writable = true →
      save_file inp.home inp.fs inp.session.text_output (saveFilename inp.session.mode)
        = (some (downloadsPath inp.home (saveFilename inp.session.mode)),
           { inp.fs with files :=
              (downloadsPath inp.home (saveFilename inp.session.mode),
                inp.session.text_output) :: inp.fs.files }) ∧
      UIEvent.successMsg
          ("💾 File saved to: " ++ downloadsPath inp.home (saveFilename inp.session.mode))
        ∈ (runScript inp).events) ∧
    (inp.fs.writable = false →
      save_file inp.home inp.fs inp.session.text_output (saveFilename inp.session.mode)
        = (none, inp.fs) ∧
      (runScript inp).fs = inp.fs ∧
      UIEvent.errorMsg "⚠️ Could not save file" ∈ (runScript inp).events) := by
  have hg : ¬(inp.runBtn = true ∧ inp.inputText ≠ "") := fun h => by
    rw [hrun] at h
    exact absurd h.1 (by simp)
  refine ⟨rfl, fun hw => ⟨save_file_writable _ _ _ _ hw, ?_⟩,
    fun hw => ⟨save_file_unwritable _ _ _ _ hw, ?_, ?_⟩⟩
  · rw [runScript_main inp pipeline htok hpipe hclear]
    rw [runSection_prev pipeline inp (sessionAfterInput inp) hg
      (show (sessionAfterInput inp).text_output ≠ "" from hout)]
    dsimp only
    rw [saveSection_on_writable inp (sessionAfterInput inp) hsave
      (show (sessionAfterInput inp).text_output ≠ "" from hout) hw]
    simp [sessionAfterInput]
  · rw [runScript_main inp pipeline htok hpipe hclear]
    rw [runSection_prev pipeline inp (sessionAfterInput inp) hg
      (show (sessionAfterInput inp).text_output ≠ "" from hout)]
    dsimp only
    rw [saveSection_on_unwritable inp (sessionAfterInput inp) hsave
      (show (sessionAfterInput inp).text_output ≠ "" from hout) hw]
  · rw [runScript_main inp pipeline htok hpipe hclear]
    rw [runSection_prev pipeline inp (sessionAfterInput inp) hg
      (show (sessionAfterInput inp).text_output ≠ "" from hout)]
    dsimp only
    rw [saveSection_on_unwritable inp (sessionAfterInput inp) hsave
      (show (sessionAfterInput inp).text_output ≠ "" from hout) hw]
    simp

/-- C6 witness: the concrete writable save click exhibits both the fixed
filename and the resolved-path reporting. -/
theorem save_fixed_filename_and_path_reporting_w :
    saveFilename c3In.session.mode
      = (if c3In.session.mode = "summary" then "AI_output.txt" else "AI_paraphrase.txt") ∧
    (c3In.fs.writable = true →
      save_file c3In.home c3In.fs c3In.session.text_output (saveFilename c3In.session.mode)
        = (some (downloadsPath c3In.home (saveFilename c3In.session.mode)),
           { c3In.fs with files :=
              (downloadsPath c3In.home (saveFilename c3In.session.mode),
                c3In.session.text_output) :: c3In.fs.files }) ∧
      UIEvent.successMsg
          ("💾 File saved to: " ++ downloadsPath c3In.home (saveFilename c3In.session.mode))
        ∈ (runScript c3In).events) ∧
    (c3In.fs.writable = false →
      save_file c3In.home c3In.fs c3In.session.text_output (saveFilename c3In.session.mode)
        = (none, c3In.fs) ∧
      (runScript c3In).fs = c3In.fs ∧
      UIEvent.errorMsg "⚠️ Could not save file" ∈ (runScript c3In).events) :=
  save_fixed_filename_and_path_reporting c3In okPipeline rfl rfl rfl rfl rfl (by decide)

end App

namespace App

/-- C8 counterexample: a concrete Run click (runBtn pressed) with empty input
text makes zero inference calls, refuting "every Run click calls exactly one
of summarize or paraphrase". -/
theorem run_click_empty_input_zero_calls_cex :
    c8In.runBtn = true ∧ (runScript c8In).calls = [] ∧
    ¬(runScript c8In).calls.length = 1 := by
  decide

/-- C8 amended: every Run click with non-empty input text calls exactly one
of summarize or paraphrase (never both, never more than one call), with the
text currently held in session state (`text_input`, just written back from
the text area); on success the string result is stored in `text_output` and
the mode tag is set to summary or paraphrase accordingly. -/
theorem run_nonempty_calls_exactly_one (inp : ScriptInput) (pipeline : Pipeline)
    (htok : pyStrOptFalsy inp.hfToken = false)
    (hpipe : inp.pipelineInit = .ok pipeline)
    (hclear : inp.clearBtn = false)
    (hrun : inp.runBtn = true)
    (hin : inp.inputText ≠ "") :
    (runScript inp).calls.length = 1 ∧
    (runScript inp).session.text_input = inp.inputText ∧
    ((inp.task = "Summarization" ∧
        (runScript inp).calls
          = [InfCall.summarizeCall inp.inputText (pyLower inp.style) (pyLower inp.length)]) ∨
      (inp.task ≠ "Summarization" ∧
        (runScript inp).calls = [InfCall.paraphraseCall inp.inputText])) ∧
    (∀ r : String,
      (inp.task = "Summarization" →
        pipeline.summarize inp.inputText (pyLower inp.style) (pyLower inp.length) = .ok r →
        (runScript inp).session.text_output = r ∧ (runScript inp).session.mode = "summary") ∧
      (inp.task ≠ "Summarization" →
        pipeline.paraphrase inp.inputText = .ok r →
        (runScript inp).session.text_output = r ∧ (runScript inp).session.mode = "paraphrase")) := by
  rw [runScript_main inp pipeline htok hpipe hclear]
  by_cases ht : inp.task = "Summarization"
  · cases hres : pipeline.summarize inp.inputText (pyLower inp.style) (pyLower inp.length) with
    | ok r0 =>
        rw [runSection_summ_ok pipeline inp (sessionAfterInput inp) r0 hrun hin ht hres]
        refine ⟨rfl, rfl, Or.inl ⟨ht, rfl⟩, fun r => ⟨fun _ hok => ?_, fun hne => absurd ht hne⟩⟩
        cases hok
        exact ⟨rfl, rfl⟩
    | error e =>
        rw [runSection_summ_err pipeline inp (sessionAfterInput inp) e hrun hin ht hres]
        refine ⟨rfl, rfl, Or.inl ⟨ht, rfl⟩, fun r => ⟨fun _ hok => ?_, fun hne => absurd ht hne⟩⟩
        cases hok
  · cases hres : pipeline.paraphrase inp.inputText with
    | ok r0 =>
        rw [runSection_para_ok pipeline inp (sessionAfterInput inp) r0 hrun hin ht hres]
        refine ⟨rfl, rfl, Or.inr ⟨ht, rfl⟩, fun r => ⟨fun hs _ => absurd hs ht, fun _ hok => ?_⟩⟩
        cases hok
        exact ⟨rfl, rfl⟩
    | error e =>
        rw [runSection_para_err pipeline inp (sessionAfterInput inp) e hrun hin ht hres]
        refine ⟨rfl, rfl, Or.inr ⟨ht, rfl⟩, fun r => ⟨fun hs _ => absurd hs ht, fun _ hok => ?_⟩⟩
        cases hok

/-- C8 amended witness: the concrete successful summarization run makes
exactly one call and stores the result with the summary mode tag. -/
theorem run_nonempty_calls_exactly_one_w :
    (runScript c5In).calls.length = 1 ∧
    (runScript c5In).session.text_input = c5In.inputText ∧
    ((c5In.task = "Summarization" ∧
        (runScript c5In).calls
          = [InfCall.summarizeCall c5In.inputText (pyLower c5In.style) (pyLower c5In.length)]) ∨
      (c5In.task ≠ "Summarization" ∧
        (runScript c5In).calls = [InfCall.paraphraseCall c5In.inputText])) ∧
    (∀ r : String,
      (c5In.task = "Summarization" →
        okPipeline.summarize c5In.inputText (pyLower c5In.style) (pyLower c5In.length) = .ok r →
        (runScript c5In).session.text_output = r ∧ (runScript c5In).session.mode = "summary") ∧
      (c5In.task ≠ "Summarization" →
        okPipeline.paraphrase c5In.inputText = .ok r →
        (runScript c5In).session.text_output = r ∧ (runScript c5In).session.mode = "paraphrase")) :=
  run_nonempty_calls_exactly_one c5In okPipeline rfl rfl rfl rfl (by decide)

/-- C10: `save_file` is total at its boundary: its result is the written
Downloads path or `none`; every exception of the `try` body (embodied by
`save_file_try` returning `.error`) is caught and mapped to `none`, never
re-raised, and every success is returned as `some` path. -/
theorem save_file_total_no_exception (home : String) (fs : FileSystem)
    (content filename : String) :
    ((save_file home fs content filename).1 = some (downloadsPath home filename) ∨
      (save_file home fs content filename).1 = none) ∧
    (∀ e : PyError, save_file_try home fs content filename = .error e →
      save_file home fs content filename = (none, fs)) ∧
    (∀ p fs', save_file_try home fs content filename = .ok (p, fs') →
      save_file home fs content filename = (some p, fs')) := by
  refine ⟨?_, fun e he => by simp [save_file, he], fun p fs' h => by simp [save_file, h]⟩
  cases hw : fs.writable
  · right
    rw [save_file_unwritable _ _ _ _ hw]
  · left
    rw [save_file_writable _ _ _ _ hw]

/-- C10 witness: concrete evaluations on a writable and an unwritable
filesystem. -/
theorem save_file_total_no_exception_w :
    ((save_file "/h" { writable := false, files := [] } "x" "AI_output.txt").1
        = some (downloadsPath "/h" "AI_output.txt") ∨
      (save_file "/h" { writable := false, files := [] } "x" "AI_output.txt").1 = none) ∧
    (∀ e : PyError,
      save_file_try "/h" { writable := false, files := [] } "x" "AI_output.txt" = .error e →
      save_file "/h" { writable := false, files := [] } "x" "AI_output.txt"
        = (none, { writable := false, files := [] })) ∧
    (∀ p fs',
      save_file_try "/h" { writable := false, files := [] } "x" "AI_output.txt" = .ok (p, fs') →
      save_file "/h" { writable := false, files := [] } "x" "AI_output.txt" = (some p, fs')) :=
  save_file_total_no_exception "/h" { writable := false, files := [] } "x" "AI_output.txt"

end App
